import Mathlib

/-!
Verification development for `src/norac_scraper.py`.

The program scrapes a listing page, reconciles the extracted records against a
SQLite database (`projects` snapshot table keyed by `list_id`, append-only
`changes` table), and logs field-level changes.

Shallow embedding choices:
* SQL values (TEXT columns, NULL) are modelled as `Option String`; SQL `=` in a
  WHERE clause follows three-valued logic (`NULL = x` is never true), see `sqlEq`.
* Tables are lists of rows in insertion (rowid) order; `INSERT` appends,
  `UPDATE ... WHERE` maps over rows, `SELECT ... fetchone()` takes the head of
  the filtered list. A `TEXT PRIMARY KEY` column rejects a duplicate non-NULL
  key but admits any number of NULLs, as SQLite does.
* `datetime.now()` is modelled by a strictly monotone tick clock carried in the
  state: each call returns `tstr clock` and advances the clock by one, the
  idealisation of a microsecond wall clock (every call is stamped at the moment
  it is made).
* The Python sqlite3 connection runs one implicit transaction: every
  `cursor.execute` write mutates the transaction view `St.db` (visible to later
  reads on the same connection), and only `conn.commit()` at the end of
  `save_projects` publishes it to `St.committed`.
* Storage faults are injected through an oracle `fault : Nat → Bool` indexed by
  a per-call operation counter: when it fires, that `cursor.execute` raises,
  which the per-record `try/except` of the source catches before continuing
  with the next record.
* The HTML extractor (`parse_projects`) is out of scope as I/O; its output
  shape is kept: every field of a record is a stripped string, except
  `list_id`, which is `None` when the title link is missing.
-/

/-- One extracted record, as built by `parse_projects` (lines 79-86):
five string fields, and a `list_id` that is `None` when no link was found. -/
structure Project where
  list_id : Option String
  title : String
  location : String
  budget : String
  status : String
  description : String
deriving Repr, DecidableEq

/-- One row of the `projects` table (schema at lines 15-25). -/
structure ProjectRow where
  list_id : Option String
  title : Option String
  location : Option String
  budget : Option String
  status : Option String
  description : Option String
  last_updated : Option String
deriving Repr, DecidableEq

/-- One row of the `changes` table (schema at lines 28-38); the autoincrement
rowid is the list position. -/
structure ChangeRow where
  list_id : Option String
  field_name : Option String
  old_value : Option String
  new_value : Option String
  change_date : Option String
deriving Repr, DecidableEq

/-- The two tables of `norac_projects.db`. -/
structure DB where
  projects : List ProjectRow
  changes : List ChangeRow
deriving Repr, DecidableEq

/-- SQL equality of two values in a WHERE clause: comparison with NULL is
never true. -/
def sqlEq : Option String → Option String → Bool
  | some a, some b => a == b
  | _, _ => false

/-- Rendering of the `n`-th `datetime.now()` result as the TEXT SQLite stores. -/
def tstr (n : Nat) : String := "ts" ++ toString n

/-- Line 100: `SELECT * FROM projects WHERE list_id = ?` followed by
`fetchone()`. -/
def selectProject (db : DB) (x : Option String) : Option ProjectRow :=
  (db.projects.filter (fun r => sqlEq r.list_id x)).head?

/-- Lines 105-117: `INSERT INTO projects ... VALUES (?, ..., ?)`. The TEXT
PRIMARY KEY raises IntegrityError on a duplicate non-NULL key; NULL keys are
admitted unconditionally (SQLite quirk). -/
def insertProjectRow (db : DB) (r : ProjectRow) : Except Unit DB :=
  if r.list_id.isSome && db.projects.any (fun q => sqlEq q.list_id r.list_id) then
    Except.error ()
  else
    Except.ok { db with projects := db.projects ++ [r] }

/-- Lines 143-147: `UPDATE projects SET title = ?, location = ?, budget = ?,
status = ?, description = ?, last_updated = ? WHERE list_id = ?` with the
seven bound values given positionally. -/
def updateProjects (db : DB) (v1 v2 v3 v4 v5 v6 v7 : Option String) : DB :=
  { db with projects := db.projects.map (fun r =>
      if sqlEq r.list_id v7 then
        { r with title := v1, location := v2, budget := v3, status := v4,
                 description := v5, last_updated := v6 }
      else r) }

/-- Lines 151-161: `INSERT INTO changes ... VALUES (?, ?, ?, ?, ?)`. -/
def insertChangeRow (db : DB) (c : ChangeRow) : DB :=
  { db with changes := db.changes ++ [c] }

/-- Line 123: `fields = ['title', 'location', 'budget', 'status',
'description']`. -/
def trackedFields : List String := ["title", "location", "budget", "status", "description"]

/-- Line 127: `existing[fields.index(field) + 1]` — positional access into the
row tuple, offset one past `list_id`. -/
def rowField (r : ProjectRow) : String → Option String
  | "title" => r.title
  | "location" => r.location
  | "budget" => r.budget
  | "status" => r.status
  | "description" => r.description
  | _ => none

/-- Line 128: `project[field]`. -/
def projField (p : Project) : String → String
  | "title" => p.title
  | "location" => p.location
  | "budget" => p.budget
  | "status" => p.status
  | "description" => p.description
  | _ => ""

/-- One element of the `changes` list built at lines 131-135. -/
structure Change where
  field_name : String
  old_value : Option String
  new_value : String
deriving Repr, DecidableEq

/-- Lines 122-135: collect a change for every tracked field whose stored value
differs from the incoming one under Python `!=` (NULL compares unequal to any
string). -/
def computeChanges (existing : ProjectRow) (p : Project) : List Change :=
  trackedFields.filterMap (fun f =>
    let old_value := rowField existing f
    let new_value := projField p f
    if old_value ≠ some new_value then some ⟨f, old_value, new_value⟩ else none)

/-- Connection state while `save_projects` runs: the committed database, the
transaction view `db` seen by this connection's cursor, the wall clock, and
the operation counter indexing fault injection. -/
structure St where
  committed : DB
  db : DB
  clock : Nat
  ops : Nat
deriving Repr, DecidableEq

/-- Per-record outcome, read off the four print/except branches of the
per-record loop (lines 118, 163, 166, 169). -/
inductive Outcome
  | Created
  | Updated (n : Nat)
  | Unchanged
  | RecordFailed
deriving Repr, DecidableEq

/-- The fault oracle that never fires (normal operation). -/
def fault0 : Nat → Bool := fun _ => false

/-- The row built by the INSERT at lines 105-117 from record `p`, stamped with
timestamp `ts` (`datetime.now()` at argument-evaluation time). -/
def mkRow (p : Project) (ts : String) : ProjectRow :=
  ⟨p.list_id, some p.title, some p.location, some p.budget, some p.status,
   some p.description, some ts⟩

/-- Lines 150-161: the `for change in changes` loop. Each iteration evaluates
`datetime.now()` (one clock tick) and then executes the INSERT, which may
fault; a fault aborts the loop (the exception propagates to the per-record
handler) leaving earlier inserts in the transaction. Returns whether the loop
completed. -/
def insertChangesLoop (fault : Nat → Bool) (lid : Option String) :
    St → List Change → Bool × St
  | s, [] => (true, s)
  | s, c :: rest =>
    let ts := tstr s.clock
    let s1 : St := { s with clock := s.clock + 1, ops := s.ops + 1 }
    if fault s.ops then (false, s1)
    else
      let row : ChangeRow := ⟨lid, some c.field_name, c.old_value, some c.new_value, some ts⟩
      insertChangesLoop fault lid { s1 with db := insertChangeRow s1.db row } rest

/-- Lines 98-170: the body of `for project in projects` with its `try/except`.
The UPDATE at lines 139-147 binds, in order, the five field values, then
`project['list_id']`, then `datetime.now()` — so the column `last_updated`
receives the record's id and the WHERE clause compares `list_id` against the
timestamp string. -/
def processRecord (fault : Nat → Bool) (s : St) (p : Project) : Outcome × St :=
  let s0 : St := { s with ops := s.ops + 1 }
  if fault s.ops then (Outcome.RecordFailed, s0)
  else
    match selectProject s0.db p.list_id with
    | none =>
      let ts := tstr s0.clock
      let s1 : St := { s0 with clock := s0.clock + 1, ops := s0.ops + 1 }
      if fault s0.ops then (Outcome.RecordFailed, s1)
      else
        match insertProjectRow s1.db (mkRow p ts) with
        | Except.error _ => (Outcome.RecordFailed, s1)
        | Except.ok db' => (Outcome.Created, { s1 with db := db' })
    | some existing =>
      let changes := computeChanges existing p
      if changes.isEmpty then (Outcome.Unchanged, s0)
      else
        let ts := tstr s0.clock
        let s1 : St := { s0 with clock := s0.clock + 1, ops := s0.ops + 1 }
        if fault s0.ops then (Outcome.RecordFailed, s1)
        else
          let db1 := updateProjects s1.db (some p.title) (some p.location)
              (some p.budget) (some p.status) (some p.description)
              p.list_id (some ts)
          let (done, s2) := insertChangesLoop fault p.list_id { s1 with db := db1 } changes
          if done then (Outcome.Updated changes.length, s2)
          else (Outcome.RecordFailed, s2)

/-- Lines 97-170: the record loop of `save_projects`, one outcome per record. -/
def saveLoop (fault : Nat → Bool) : St → List Project → List Outcome × St
  | s, [] => ([], s)
  | s, p :: ps =>
    let (o, s1) := processRecord fault s p
    let (os, s2) := saveLoop fault s1 ps
    (o :: os, s2)

/-- Line 172: `conn.commit()` publishes the transaction view. -/
def commitConn (s : St) : St := { s with committed := s.db }

/-- Lines 93-173: `save_projects`. A fresh connection is opened, so the
transaction view starts at the committed database; the loop runs, then the
single `conn.commit()` publishes everything at once. -/
def save_projects (fault : Nat → Bool) (dbc : DB) (clock : Nat)
    (projects : List Project) : List Outcome × St :=
  let s0 : St := { committed := dbc, db := dbc, clock := clock, ops := 0 }
  let (os, s1) := saveLoop fault s0 projects
  (os, commitConn s1)

/-- Lines 175-183: `scrape_and_save`. The fetch result (after the bounded
retries of `fetch_projects`) and the extractor are passed in; the enclosing
`try/except` turns any failure into a logged skip of the cycle, leaving the
committed database untouched. Returns `none` when the cycle was skipped. -/
def scrape_and_save (fetched : Except String String)
    (parsed : String → List Project) (fault : Nat → Bool)
    (dbc : DB) (clock : Nat) : Option (List Outcome) × DB :=
  match fetched with
  | Except.error _ => (none, dbc)
  | Except.ok html =>
    let (os, s) := save_projects fault dbc clock (parsed html)
    (some os, s.committed)

/-- Number of `cursor.execute` calls one record performs in a fault-free run:
the SELECT at line 100, then either the INSERT at lines 105-117 (fresh id),
nothing further (empty diff), or the UPDATE at lines 143-147 followed by one
change INSERT per differing field. A record's storage operations occupy this
window of the operation counter. -/
def recordOpCount (db : DB) (p : Project) : Nat :=
  match selectProject db p.list_id with
  | none => 2
  | some ex => if (computeChanges ex p).isEmpty then 1 else 2 + (computeChanges ex p).length

/-- Specification-side description of what the change-insert loop stamps:
the `i`-th entry of a record's change set carries the clock value at the
moment that entry's INSERT arguments are built, one tick per write. Stated
from the amended claim's words, to be compared with `insertChangesLoop`. -/
def stampChanges (lid : Option String) (clock : Nat) : List Change → List ChangeRow
  | [] => []
  | c :: rest =>
    ⟨lid, some c.field_name, c.old_value, some c.new_value, some (tstr clock)⟩ ::
      stampChanges lid (clock + 1) rest

/-! Concrete fixtures used by evaluation theorems and witnesses. -/

/-- An existing snapshot row for id `a1`. -/
def rowA1 : ProjectRow := ⟨some "a1", some "Old", some "L", some "B", some "S", some "D", some "t"⟩

/-- An incoming record for `a1` whose title changed. -/
def pA1 : Project := ⟨some "a1", "New", "L", "B", "S", "D"⟩

/-- A store holding only `rowA1`. -/
def dbA1 : DB := ⟨[rowA1], []⟩

/-- An existing snapshot row for id `b2`. -/
def rowB2 : ProjectRow := ⟨some "b2", some "T1", some "L1", some "B", some "S", some "D", some "t"⟩

/-- An incoming record for `b2` with title and location changed (k = 2). -/
def pB2 : Project := ⟨some "b2", "T2", "L2", "B", "S", "D"⟩

/-- A store holding only `rowB2`. -/
def dbB2 : DB := ⟨[rowB2], []⟩

/-- An existing snapshot row for id `c5`. -/
def rowC5 : ProjectRow := ⟨some "c5", some "V1", some "L", some "B", some "S", some "D", some "t"⟩

/-- An incoming record for `c5` with a new title. -/
def pC5 : Project := ⟨some "c5", "V2", "L", "B", "S", "D"⟩

/-- A store holding only `rowC5`. -/
def dbC5 : DB := ⟨[rowC5], []⟩

/-- First occurrence of id `d7` in a batch. -/
def pD7x : Project := ⟨some "d7", "x", "L", "B", "S", "D"⟩

/-- Second occurrence of id `d7` in the same batch, title changed. -/
def pD7y : Project := ⟨some "d7", "y", "L", "B", "S", "D"⟩

/-- A record whose id is the empty string. -/
def pEmptyId : Project := ⟨some "", "T", "L", "B", "S", "D"⟩

/-- A record with no id at all (`list_id` is `None`). -/
def pNoId : Project := ⟨none, "T", "L", "B", "S", "D"⟩

/-- The empty store. -/
def emptyDB : DB := ⟨[], []⟩

/-- An existing snapshot row for id `e8`. -/
def rowE8 : ProjectRow := ⟨some "e8", some "T", some "L", some "B", some "Open", some "D", some "t"⟩

/-- An incoming record for `e8` with title and status changed. -/
def pE8 : Project := ⟨some "e8", "T2", "L", "B", "Closed", "D"⟩

/-- A store holding only `rowE8`. -/
def dbE8 : DB := ⟨[rowE8], []⟩

/-! Helper lemmas shared by the claim theorems. -/

/-- SQL comparison against NULL never holds. -/
theorem sqlEq_none_right (x : Option String) : sqlEq x none = false := by
  cases x <;> rfl

/-- A record with no id never matches an existing row. -/
theorem selectProject_none_id (db : DB) : selectProject db none = none := by
  simp [selectProject, sqlEq_none_right]

/-- If the point lookup finds nothing, no row satisfies the key predicate. -/
theorem selectProject_none_any (db : DB) (x : Option String)
    (h : selectProject db x = none) :
    db.projects.any (fun q => sqlEq q.list_id x) = false := by
  unfold selectProject at h
  rw [List.head?_eq_none_iff, List.filter_eq_nil_iff] at h
  rw [Bool.eq_false_iff]
  intro hany
  obtain ⟨q, hq, hpq⟩ := List.any_eq_true.mp hany
  exact h q hq hpq

/-- Unfolding equation for `saveLoop` on a non-empty batch. -/
theorem saveLoop_cons (fault : Nat → Bool) (s : St) (p : Project) (ps : List Project) :
    saveLoop fault s (p :: ps) =
      ((processRecord fault s p).1 :: (saveLoop fault (processRecord fault s p).2 ps).1,
       (saveLoop fault (processRecord fault s p).2 ps).2) := rfl

/-- The record loop emits exactly one outcome per record of the batch,
whatever the fault oracle does. -/
theorem saveLoop_length (fault : Nat → Bool) :
    ∀ (ps : List Project) (s : St), ((saveLoop fault s ps).1).length = ps.length
  | [], _ => rfl
  | p :: ps, s => by
    rw [saveLoop_cons]
    simpa using saveLoop_length fault ps (processRecord fault s p).2

/-- The change-insert loop never touches the committed database. -/
theorem insertChangesLoop_committed (fault : Nat → Bool) (lid : Option String) :
    ∀ (cs : List Change) (s : St),
      ((insertChangesLoop fault lid s cs).2).committed = s.committed
  | [], _ => rfl
  | c :: rest, s => by
    unfold insertChangesLoop
    dsimp only
    split
    · rfl
    · exact insertChangesLoop_committed fault lid rest _

/-- Without faults, the change-insert loop completes and appends exactly the
stamped change rows, ticking the clock once per row. -/
theorem insertChangesLoop_noFault (lid : Option String) :
    ∀ (cs : List Change) (s : St),
      insertChangesLoop fault0 lid s cs =
        (true, ⟨s.committed, ⟨s.db.projects, s.db.changes ++ stampChanges lid s.clock cs⟩,
          s.clock + cs.length, s.ops + cs.length⟩)
  | [], s => by
    simp [insertChangesLoop, stampChanges]
  | c :: rest, s => by
    unfold insertChangesLoop
    dsimp only [fault0]
    rw [if_neg (by simp)]
    rw [insertChangesLoop_noFault lid rest]
    simp [stampChanges, insertChangeRow, List.append_assoc]
    omega

/-- Processing one record never touches the committed database: there is no
`conn.commit()` inside the record loop. -/
theorem processRecord_committed (fault : Nat → Bool) (s : St) (p : Project) :
    ((processRecord fault s p).2).committed = s.committed := by
  unfold processRecord
  dsimp only
  split
  · rfl
  · split
    · split
      · rfl
      · split
        · rfl
        · rfl
    · split
      · rfl
      · split
        · rfl
        · split
          · exact insertChangesLoop_committed fault p.list_id _ _
          · exact insertChangesLoop_committed fault p.list_id _ _

/-- The record loop never commits, whatever the batch and the faults: killing
the process anywhere inside the loop leaves the committed database as it was. -/
theorem saveLoop_committed (fault : Nat → Bool) :
    ∀ (ps : List Project) (s : St), ((saveLoop fault s ps).2).committed = s.committed
  | [], _ => rfl
  | p :: ps, s => by
    rw [saveLoop_cons]
    dsimp only
    rw [saveLoop_committed fault ps]
    exact processRecord_committed fault s p

/-- Without faults, a record whose id has no snapshot row takes the INSERT
branch: outcome `Created`, the fully populated row stamped with the current
clock appended to `projects`, and `changes` untouched. -/
theorem processRecord_noFault_created (s : St) (p : Project)
    (h : selectProject s.db p.list_id = none) :
    processRecord fault0 s p =
      (Outcome.Created,
        ⟨s.committed, ⟨s.db.projects ++ [mkRow p (tstr s.clock)], s.db.changes⟩,
         s.clock + 1, s.ops + 2⟩) := by
  have hany := selectProject_none_any s.db p.list_id h
  have hins : insertProjectRow s.db (mkRow p (tstr s.clock)) =
      Except.ok ⟨s.db.projects ++ [mkRow p (tstr s.clock)], s.db.changes⟩ := by
    unfold insertProjectRow
    rw [if_neg (by simp [mkRow, hany])]
  unfold processRecord
  dsimp only [fault0]
  rw [if_neg (by simp)]
  rw [h]
  dsimp only
  rw [if_neg (by simp)]
  rw [hins]

/-- Without faults, a record whose id has a snapshot row appends to `changes`
exactly the stamped diff of the stored row against the incoming record (no
rows when the diff is empty). -/
theorem processRecord_changes_noFault (s : St) (p : Project) (ex : ProjectRow)
    (h : selectProject s.db p.list_id = some ex) :
    ((processRecord fault0 s p).2).db.changes =
      s.db.changes ++ stampChanges p.list_id (s.clock + 1) (computeChanges ex p) := by
  unfold processRecord
  dsimp only [fault0]
  rw [if_neg (by simp)]
  rw [h]
  dsimp only
  by_cases hc : (computeChanges ex p).isEmpty
  · rw [if_pos hc]
    rw [List.isEmpty_iff.mp hc]
    simp [stampChanges]
  · rw [if_neg hc]
    rw [if_neg (by simp)]
    rw [insertChangesLoop_noFault]
    dsimp only
    split
    · rfl
    · rfl

/-- If the first fault inside the change-insert loop's operation window hits
the `k`-th INSERT, the loop aborts (the exception reaches the per-record
handler). -/
theorem insertChangesLoop_first_fault (fault : Nat → Bool) (lid : Option String) :
    ∀ (cs : List Change) (s : St) (k : Nat), k < cs.length →
      (∀ i, i < k → fault (s.ops + i) = false) → fault (s.ops + k) = true →
      ((insertChangesLoop fault lid s cs).1) = false
  | [], _, k, hk, _, _ => absurd hk (by simp)
  | c :: rest, s, k, hk, hpre, hf => by
    unfold insertChangesLoop
    dsimp only
    cases k with
    | zero =>
      have hf' : fault s.ops = true := by simpa using hf
      rw [if_pos hf']
    | succ k' =>
      have h0 : fault s.ops = false := hpre 0 (Nat.succ_pos k')
      rw [if_neg (by simp [h0])]
      apply insertChangesLoop_first_fault fault lid rest _ k'
      · simpa using Nat.lt_of_succ_lt_succ (by simpa using hk)
      · intro i hi
        have h := hpre (i + 1) (by omega)
        have e : s.ops + 1 + i = s.ops + (i + 1) := by omega
        rw [e]
        exact h
      · have e : s.ops + 1 + k' = s.ops + (k' + 1) := by omega
        rw [e]
        exact hf

/-- Unfolding equation for `recordOpCount` when the id has no snapshot row. -/
theorem recordOpCount_none (db : DB) (p : Project)
    (h : selectProject db p.list_id = none) : recordOpCount db p = 2 := by
  unfold recordOpCount
  rw [h]

/-- Unfolding equation for `recordOpCount` when the id has a snapshot row. -/
theorem recordOpCount_some (db : DB) (p : Project) (ex : ProjectRow)
    (h : selectProject db p.list_id = some ex) :
    recordOpCount db p =
      if (computeChanges ex p).isEmpty then 1 else 2 + (computeChanges ex p).length := by
  unfold recordOpCount
  rw [h]

/-- If the first fault inside a record's operation window hits its `j`-th
storage operation — the SELECT, the INSERT, the UPDATE or any change INSERT —
the record is reported `RecordFailed`. -/
theorem processRecord_first_fault (fault : Nat → Bool) (s : St) (p : Project)
    (j : Nat) (hj : j < recordOpCount s.db p)
    (hpre : ∀ i, i < j → fault (s.ops + i) = false)
    (hf : fault (s.ops + j) = true) :
    (processRecord fault s p).1 = Outcome.RecordFailed := by
  unfold processRecord
  dsimp only
  cases j with
  | zero =>
    have hf' : fault s.ops = true := by simpa using hf
    rw [if_pos hf']
  | succ j' =>
    have h0 : fault s.ops = false := hpre 0 (Nat.succ_pos j')
    rw [if_neg (by simp [h0])]
    cases hsel : selectProject s.db p.list_id with
    | none =>
      rw [recordOpCount_none s.db p hsel] at hj
      dsimp only
      have hj0 : j' = 0 := by omega
      subst hj0
      have hf' : fault (s.ops + 1) = true := by simpa using hf
      rw [if_pos hf']
    | some ex =>
      rw [recordOpCount_some s.db p ex hsel] at hj
      dsimp only
      by_cases hc : (computeChanges ex p).isEmpty
      · rw [if_pos hc] at hj
        exact absurd hj (by omega)
      · rw [if_neg hc] at hj
        rw [if_neg hc]
        cases j' with
        | zero =>
          have hf' : fault (s.ops + 1) = true := by simpa using hf
          rw [if_pos hf']
        | succ j2 =>
          have h1 : fault (s.ops + 1) = false := hpre 1 (by omega)
          rw [if_neg (by simp [h1])]
          have hpre2 : ∀ i, i < j2 → fault (s.ops + 1 + 1 + i) = false := by
            intro i hi
            have h := hpre (i + 1 + 1) (by omega)
            have e : s.ops + 1 + 1 + i = s.ops + (i + 1 + 1) := by omega
            rw [e]
            exact h
          have hf2 : fault (s.ops + 1 + 1 + j2) = true := by
            have e : s.ops + 1 + 1 + j2 = s.ops + (j2 + 1 + 1) := by omega
            rw [e]
            exact hf
          have hloop := insertChangesLoop_first_fault fault p.list_id
            (computeChanges ex p)
            ⟨s.committed,
             updateProjects s.db (some p.title) (some p.location) (some p.budget)
               (some p.status) (some p.description) p.list_id (some (tstr s.clock)),
             s.clock + 1, s.ops + 1 + 1⟩
            j2 (by omega) hpre2 hf2
          rw [hloop]
          simp

/-! Claim theorems. -/

/-- Claim C1. The claim says that for a record whose id already has a snapshot
and whose change set is non-empty, the snapshot overwrite and the change-log
append are atomic: both take effect or both roll back. The code violates this:
with no fault injected at all, processing `pA1` against the store `dbA1`
commits the change entry while the snapshot row is left completely untouched,
because the UPDATE statement binds the timestamp to the `WHERE list_id`
placeholder (and the id to `last_updated`), so it matches zero rows. The
append takes effect and the overwrite does not. -/
theorem C1_append_takes_effect_without_overwrite :
    (save_projects fault0 dbA1 5 [pA1]).1 = [Outcome.Updated 1] ∧
    ((save_projects fault0 dbA1 5 [pA1]).2).committed =
      ⟨[rowA1], [⟨some "a1", some "title", some "Old", some "New", some "ts6"⟩]⟩ :=
  ⟨rfl, rfl⟩

/-- Claim C2, counterexample. The claim says a record whose id is absent or
empty is skipped, reported `ExtractionSkipped`, with no storage writes for it.
In fact `save_projects` performs no id validation: on an empty store, the
record with the empty-string id is inserted as a snapshot row and reported as
a creation, so a storage write does happen — the claim is false. -/
theorem C2_empty_id_record_is_written :
    (save_projects fault0 emptyDB 0 [pEmptyId]).1 = [Outcome.Created] ∧
    ((save_projects fault0 emptyDB 0 [pEmptyId]).2).committed.projects =
      [mkRow pEmptyId (tstr 0)] :=
  ⟨rfl, rfl⟩

/-- Claim C2, amended. No id validation occurs: a record whose `list_id` is
absent (NULL) never matches an existing row (SQL `NULL =` is never true), so
it is inserted as a fresh snapshot row with a NULL id and reported `Created`,
not skipped; a record with an empty-string id is handled like any ordinary id.
The batch does continue past such records: the loop emits one outcome per
record, whatever happens. -/
theorem C2_amended_no_id_validation :
    (∀ (s : St) (p : Project), p.list_id = none →
      (processRecord fault0 s p).1 = Outcome.Created ∧
      ((processRecord fault0 s p).2).db.projects = s.db.projects ++ [mkRow p (tstr s.clock)]) ∧
    (∀ (fault : Nat → Bool) (s : St) (ps : List Project),
      ((saveLoop fault s ps).1).length = ps.length) := by
  constructor
  · intro s p hp
    have h : selectProject s.db p.list_id = none := by
      rw [hp]; exact selectProject_none_id s.db
    rw [processRecord_noFault_created s p h]
    exact ⟨rfl, rfl⟩
  · exact fun fault s ps => saveLoop_length fault ps s

/-- Witness for the amended claim C2: the record with no id, run against the
empty store, is inserted and reported `Created`, and a two-record batch yields
two outcomes. -/
theorem C2_amended_no_id_validation_witness :
    ((processRecord fault0 ⟨emptyDB, emptyDB, 0, 0⟩ pNoId).1 = Outcome.Created ∧
     ((processRecord fault0 ⟨emptyDB, emptyDB, 0, 0⟩ pNoId).2).db.projects =
       emptyDB.projects ++ [mkRow pNoId (tstr 0)]) ∧
    ((saveLoop fault0 ⟨emptyDB, emptyDB, 0, 0⟩ [pNoId, pEmptyId]).1).length = 2 :=
  ⟨C2_amended_no_id_validation.1 ⟨emptyDB, emptyDB, 0, 0⟩ pNoId rfl,
   C2_amended_no_id_validation.2 fault0 ⟨emptyDB, emptyDB, 0, 0⟩ [pNoId, pEmptyId]⟩

/-- Claim C3. The claim says that when k of the 5 tracked fields differ,
reconciliation produces exactly k change entries with correct old/new values
and exactly one snapshot update. The diff part is right: for `pB2` against
`dbB2` (k = 2: title and location) exactly two entries with the stored values
as `old_value` and the incoming values as `new_value` are committed. But the
snapshot update has no effect: the UPDATE's swapped bindings match zero rows,
so the `projects` table is unchanged — the code contradicts the claim's
"exactly one snapshot update". -/
theorem C3_two_entries_but_snapshot_unchanged :
    (save_projects fault0 dbB2 0 [pB2]).1 = [Outcome.Updated 2] ∧
    ((save_projects fault0 dbB2 0 [pB2]).2).committed.changes =
      [⟨some "b2", some "title", some "T1", some "T2", some "ts1"⟩,
       ⟨some "b2", some "location", some "L1", some "L2", some "ts2"⟩] ∧
    ((save_projects fault0 dbB2 0 [pB2]).2).committed.projects = [rowB2] :=
  ⟨rfl, rfl, rfl⟩

/-- Claim C4. The claim says reconciling the same batch twice in succession is
idempotent: second run all `Unchanged`, zero new change entries. Because the
UPDATE never modifies the stored row, the second run of the same batch against
the store left by the first run re-detects the same diff, reports
`Updated 1` (not `Unchanged`), and appends a second change entry. -/
theorem C4_second_run_repeats_changes :
    (save_projects fault0
      ((save_projects fault0 dbA1 0 [pA1]).2).committed
      ((save_projects fault0 dbA1 0 [pA1]).2).clock [pA1]).1 = [Outcome.Updated 1] ∧
    ((save_projects fault0
      ((save_projects fault0 dbA1 0 [pA1]).2).committed
      ((save_projects fault0 dbA1 0 [pA1]).2).clock [pA1]).2).committed.changes.length = 2 :=
  ⟨rfl, rfl⟩

/-- Claim C5. The claim says the snapshot row's fields always reflect the most
recent accepted record for its id. After accepting `pC5` (title "V2") for id
`c5`, the stored row still carries the old title "V1": the UPDATE statement's
swapped bindings make it match zero rows, so the row never reflects the most
recent record. -/
theorem C5_row_does_not_reflect_latest :
    selectProject ((save_projects fault0 dbC5 0 [pC5]).2).committed (some "c5") = some rowC5 ∧
    (save_projects fault0 dbC5 0 [pC5]).1 = [Outcome.Updated 1] ∧
    rowC5.title ≠ some pC5.title :=
  ⟨rfl, rfl, by decide⟩

/-- Claim C6, counterexample. The claim says every change entry of a record
carries `changed_at` equal to the record's batch-level `observed_at`. The code
has no `observed_at` at all: each write calls `datetime.now()` separately. For
`pE8` (two differing fields) the two committed change entries carry distinct
`change_date` values, so they cannot both equal any single per-record
timestamp — the claim is false. -/
theorem C6_change_dates_of_one_record_differ :
    ((save_projects fault0 dbE8 0 [pE8]).2).committed.changes.map (fun c => c.change_date) =
      [some "ts1", some "ts2"] ∧
    (some "ts1" : Option String) ≠ some "ts2" :=
  ⟨rfl, by decide⟩

/-- Claim C6, amended. Records carry no extraction timestamp; every stored
timestamp is the wall clock at the moment of that individual write: a newly
inserted snapshot row is stamped with the clock at its INSERT, and the i-th
change entry of a record's diff is stamped with its own strictly later clock
tick (update first, then one tick per entry), as described by `stampChanges`. -/
theorem C6_amended_write_time_stamps :
    (∀ (s : St) (p : Project), selectProject s.db p.list_id = none →
      ((processRecord fault0 s p).2).db.projects = s.db.projects ++ [mkRow p (tstr s.clock)]) ∧
    (∀ (s : St) (p : Project) (ex : ProjectRow), selectProject s.db p.list_id = some ex →
      ((processRecord fault0 s p).2).db.changes =
        s.db.changes ++ stampChanges p.list_id (s.clock + 1) (computeChanges ex p)) := by
  constructor
  · intro s p h
    rw [processRecord_noFault_created s p h]
  · exact processRecord_changes_noFault

/-- Witness for the amended claim C6: a fresh insert is stamped with the
clock at insert time, and the changed-field entries of `pE8` are stamped with
the successive ticks following the update. -/
theorem C6_amended_write_time_stamps_witness :
    (((processRecord fault0 ⟨emptyDB, emptyDB, 0, 0⟩ pD7x).2).db.projects =
      emptyDB.projects ++ [mkRow pD7x (tstr 0)]) ∧
    (((processRecord fault0 ⟨dbE8, dbE8, 0, 0⟩ pE8).2).db.changes =
      dbE8.changes ++ stampChanges (some "e8") 1 (computeChanges rowE8 pE8)) :=
  ⟨C6_amended_write_time_stamps.1 ⟨emptyDB, emptyDB, 0, 0⟩ pD7x (by decide),
   C6_amended_write_time_stamps.2 ⟨dbE8, dbE8, 0, 0⟩ pE8 rowE8 (by decide)⟩

/-- Claim C7. Any per-record storage failure is caught and reported as a
failed record without stopping the batch, and no error terminates the runner:
the record loop emits one outcome per record under any fault oracle; a fault
at ANY of the storage operations a record performs — the SELECT, the INSERT,
the UPDATE or any of its change-log INSERTs (the record's operation window of
size `recordOpCount`) — makes that record report `RecordFailed`; and a cycle
whose fetch fails is skipped with the committed store untouched. -/
theorem C7_faults_isolated_and_nonfatal :
    (∀ (fault : Nat → Bool) (s : St) (ps : List Project),
      ((saveLoop fault s ps).1).length = ps.length) ∧
    (∀ (fault : Nat → Bool) (s : St) (p : Project),
      (∃ j, j < recordOpCount s.db p ∧ fault (s.ops + j) = true) →
      (processRecord fault s p).1 = Outcome.RecordFailed) ∧
    (∀ (e : String) (parsed : String → List Project) (fault : Nat → Bool)
      (dbc : DB) (clock : Nat),
      scrape_and_save (Except.error e) parsed fault dbc clock = (none, dbc)) := by
  refine ⟨fun fault s ps => saveLoop_length fault ps s, ?_, fun _ _ _ _ _ => rfl⟩
  intro fault s p h
  obtain ⟨j, hj, hfj⟩ := h
  have hex : ∃ m, fault (s.ops + m) = true := ⟨j, hfj⟩
  refine processRecord_first_fault fault s p (Nat.find hex) ?_ ?_ (Nat.find_spec hex)
  · exact lt_of_le_of_lt (Nat.find_min' hex hfj) hj
  · intro i hi
    exact Bool.eq_false_iff.mpr (Nat.find_min hex hi)

/-- Witness for claim C7: a fault on the record's fourth storage operation —
the second change-log INSERT of `pB2`, well past the SELECT — fails that
record while both records of the batch still get an outcome, and a failed
fetch leaves the store as it was. -/
theorem C7_faults_isolated_and_nonfatal_witness :
    ((saveLoop (fun n => n == 3) ⟨dbB2, dbB2, 0, 0⟩ [pB2, pD7x]).1).length = 2 ∧
    (processRecord (fun n => n == 3) ⟨dbB2, dbB2, 0, 0⟩ pB2).1 = Outcome.RecordFailed ∧
    scrape_and_save (Except.error "timeout") (fun _ => []) fault0 dbA1 0 = (none, dbA1) :=
  ⟨C7_faults_isolated_and_nonfatal.1 (fun n => n == 3) ⟨dbB2, dbB2, 0, 0⟩ [pB2, pD7x],
   C7_faults_isolated_and_nonfatal.2.1 (fun n => n == 3) ⟨dbB2, dbB2, 0, 0⟩ pB2
     ⟨3, by decide, by decide⟩,
   C7_faults_isolated_and_nonfatal.2.2 "timeout" (fun _ => []) fault0 dbA1 0⟩

/-- Claim C8. For an id that carries a value and has no snapshot row yet,
processing the record inserts exactly one row holding all of the record's
fields, writes zero change entries, and reports it as created. -/
theorem C8_new_id_inserts_once_no_changes (s : St) (p : Project)
    (h1 : p.list_id.isSome = true)
    (h2 : selectProject s.db p.list_id = none) :
    (processRecord fault0 s p).1 = Outcome.Created ∧
    ((processRecord fault0 s p).2).db.projects = s.db.projects ++ [mkRow p (tstr s.clock)] ∧
    ((processRecord fault0 s p).2).db.changes = s.db.changes := by
  rw [processRecord_noFault_created s p h2]
  exact ⟨rfl, rfl, rfl⟩

/-- Witness for claim C8: the record `pD7x` against the empty store. -/
theorem C8_new_id_inserts_once_no_changes_witness :
    (processRecord fault0 ⟨emptyDB, emptyDB, 3, 0⟩ pD7x).1 = Outcome.Created ∧
    ((processRecord fault0 ⟨emptyDB, emptyDB, 3, 0⟩ pD7x).2).db.projects =
      emptyDB.projects ++ [mkRow pD7x (tstr 3)] ∧
    ((processRecord fault0 ⟨emptyDB, emptyDB, 3, 0⟩ pD7x).2).db.changes = emptyDB.changes :=
  C8_new_id_inserts_once_no_changes ⟨emptyDB, emptyDB, 3, 0⟩ pD7x (by decide) (by decide)

/-- Claim C9. The claim says duplicate ids in one batch are processed in
order, the second diffing against the first's result, so the final stored
state is the last occurrence's (last-write-wins). The first half holds: the
second occurrence of `d7` is diffed against the row inserted by the first (a
change entry `x` to `y` is logged). But the final snapshot keeps the FIRST
occurrence's title `x`: the UPDATE's swapped bindings match zero rows, so
last-write-wins fails. -/
theorem C9_last_write_does_not_win :
    (save_projects fault0 emptyDB 0 [pD7x, pD7y]).1 =
      [Outcome.Created, Outcome.Updated 1] ∧
    ((save_projects fault0 emptyDB 0 [pD7x, pD7y]).2).committed.changes =
      [⟨some "d7", some "title", some "x", some "y", some "ts2"⟩] ∧
    ((save_projects fault0 emptyDB 0 [pD7x, pD7y]).2).committed.projects =
      [mkRow pD7x (tstr 0)] :=
  ⟨rfl, rfl, rfl⟩

/-- Claim C10. All writes of one batch are committed together by the single
`conn.commit()` at the end of `save_projects`: the record loop itself never
changes the committed database (killing the process mid-batch persists
nothing), the final committed state equals the whole transaction view, and a
record whose later write faults can still have its earlier writes committed
with the batch — concretely, faulting the second change-insert of `pB2` fails
the record yet its first change entry is committed. -/
theorem C10_batch_commits_once_at_end :
    (∀ (fault : Nat → Bool) (s : St) (ps : List Project),
      ((saveLoop fault s ps).2).committed = s.committed) ∧
    (∀ (fault : Nat → Bool) (dbc : DB) (clock : Nat) (ps : List Project),
      ((save_projects fault dbc clock ps).2).committed =
        ((save_projects fault dbc clock ps).2).db) ∧
    ((save_projects (fun n => n == 3) dbB2 0 [pB2]).1 = [Outcome.RecordFailed] ∧
     ((save_projects (fun n => n == 3) dbB2 0 [pB2]).2).committed.changes =
       [⟨some "b2", some "title", some "T1", some "T2", some "ts1"⟩]) :=
  ⟨fun fault s ps => saveLoop_committed fault ps s,
   fun _ _ _ _ => rfl,
   rfl, rfl⟩
